import Mathlib

/-
Shallow embedding of the code4swipe repository (Python).

The repository monitors a git repository for new work and triggers a
"swipe up" on an Android device via ADB as a reward.  The code exists
twice: once as split modules under src/base, src/change_detectors,
src/diff_providers, src/swipe_providers, src/factories.py, and once as
the monolithic script src/code4swipe.py.  The two copies agree except
for the LineCount detector comparison, which we embed separately.

External effects (the `git diff` subprocess, the `adb` subprocess) are
modelled by passing the invocation's outcome as an explicit argument;
stateful objects are modelled by explicit state passing (the method
returns its result together with the updated object).
-/

/-! ## Python string primitives used by the source -/

/-- The line-boundary characters recognised by Python `str.splitlines`. -/
def isPyLineBreak (c : Char) : Bool :=
  c = '\n' || c = '\r' || c = '\x0b' || c = '\x0c' ||
  c = Char.ofNat 0x1c || c = Char.ofNat 0x1d || c = Char.ofNat 0x1e ||
  c = Char.ofNat 0x85 || c = Char.ofNat 0x2028 || c = Char.ofNat 0x2029

/-- Helper for `pySplitlines`: `acc` holds the current (reversed) line. -/
def pySplitlinesAux : List Char → List Char → List String
  | [], acc => if acc.isEmpty then [] else [String.mk acc.reverse]
  | '\r' :: '\n' :: rest, acc => String.mk acc.reverse :: pySplitlinesAux rest []
  | c :: rest, acc =>
    if isPyLineBreak c then String.mk acc.reverse :: pySplitlinesAux rest []
    else pySplitlinesAux rest (c :: acc)

/-- Python `str.splitlines`: splits at line boundaries, treating `"\r\n"`
as a single boundary and producing no trailing empty line. -/
def pySplitlines (s : String) : List String :=
  pySplitlinesAux s.data []

/-- Python `str.strip()` with no argument: removes leading and trailing
whitespace. -/
def pyStrip (s : String) : String := s.trim

/-- Python `str.lower()` (the names in this repository are ASCII, so
per-character ASCII lowering is faithful). -/
def pyLower (s : String) : String := String.mk (s.data.map Char.toLower)

/-! ## Diff Source: GitDiffProviderSubprocess.get_current_git_diff
(src/diff_providers/git_diff_provider_subprocess.py lines 14-70; the
identical monolithic copy is src/code4swipe.py lines 53-109). -/

/-- Outcome of the `git -C <repo> diff` subprocess invocation, which is
external to the program: success with captured stdout, the executable
being absent (`FileNotFoundError`), a non-zero exit with captured stderr
(`subprocess.CalledProcessError`), or any other exception. -/
inductive GitDiffOutcome
  | success (stdout : String)
  | fileNotFoundError
  | calledProcessError (stderr : String)
  | otherException (message : String)
deriving DecidableEq

/-- What `get_current_git_diff` does to its caller: either the process is
terminated (`sys.exit(code)`) or a diff string is returned normally.
There is no constructor for an exception propagating to the caller,
because the source catches `FileNotFoundError`, `CalledProcessError`
and `Exception` exhaustively. -/
inductive GitDiffResult
  | fatalExit (code : Nat)
  | ok (diff : String)
deriving DecidableEq

/-- `GitDiffProviderSubprocess.get_current_git_diff`.  Returns the result
together with the list of lines echoed to stderr (via `click.echo`). -/
def get_current_git_diff (repo_path : String) (outcome : GitDiffOutcome) :
    GitDiffResult × List String :=
  match outcome with
  | .success stdout => (.ok stdout, [])
  | .fileNotFoundError =>
      (.fatalExit 1,
       ["Error: git command not found. Is it installed and in your PATH?"])
  | .calledProcessError stderr =>
      if (pyStrip stderr).startsWith "fatal: not a git repository" then
        (.ok "", ["Hint: " ++ repo_path ++ " is not a valid git repository."])
      else
        (.ok "", ["Error checking git diff: " ++ pyStrip stderr])
  | .otherException message =>
      (.ok "", ["An unexpected error occurred checking git: " ++ message])

/-! ## Change detectors
The base class `GitDiffChangesDetectorBase.__init__` stores
`self._last_state = self.get_current_state()` (an eager initial fetch);
`check_for_new_work` recomputes the state, compares, and unconditionally
replaces the baseline.  The fetch performed inside each call is modelled
by the `fetched_diff` argument: the diff text the Diff Source returns at
that moment. -/

/-- State of `GitDiffChangesDetectorExact`
(src/change_detectors/git_diff_changes_detector_exact.py; identical in
src/code4swipe.py lines 175-205): the baseline is the whole diff text. -/
structure GitDiffChangesDetectorExact where
  last_state : String
deriving DecidableEq

/-- `GitDiffChangesDetectorExact.get_current_state`: returns the entire
current git diff string (the provider's fetched value, unchanged). -/
def GitDiffChangesDetectorExact.get_current_state (fetched_diff : String) : String :=
  fetched_diff

/-- `GitDiffChangesDetectorBase.__init__` specialised to the Exact
detector: the baseline is initialised by an eager fetch. -/
def GitDiffChangesDetectorExact.init (initial_fetch : String) :
    GitDiffChangesDetectorExact :=
  { last_state := GitDiffChangesDetectorExact.get_current_state initial_fetch }

/-- `GitDiffChangesDetectorExact.check_for_new_work`: true when the
current diff string is NOT EQUAL to the last recorded diff string; the
baseline is always updated to the current state. -/
def GitDiffChangesDetectorExact.check_for_new_work
    (self : GitDiffChangesDetectorExact) (fetched_diff : String) :
    Bool × GitDiffChangesDetectorExact :=
  let current_diff := GitDiffChangesDetectorExact.get_current_state fetched_diff
  let has_new_work := current_diff != self.last_state
  (has_new_work, { last_state := current_diff })

/-- State of `GitDiffChangesDetectorLineCount`
(src/change_detectors/git_diff_changes_detector_line_count.py, the
split-module version): the baseline is an integer line count. -/
structure GitDiffChangesDetectorLineCount where
  last_state : Int
deriving DecidableEq

/-- `GitDiffChangesDetectorLineCount.get_current_state`: the number of
lines in the current git diff, `len(diff_string.splitlines())`. -/
def GitDiffChangesDetectorLineCount.get_current_state (fetched_diff : String) : Int :=
  ((pySplitlines fetched_diff).length : Int)

/-- `GitDiffChangesDetectorLineCount.check_for_new_work` (split-module
version): the comparison in the code is `current_count != self._last_state`. -/
def GitDiffChangesDetectorLineCount.check_for_new_work
    (self : GitDiffChangesDetectorLineCount) (fetched_diff : String) :
    Bool × GitDiffChangesDetectorLineCount :=
  let current_count := GitDiffChangesDetectorLineCount.get_current_state fetched_diff
  let has_new_work := current_count != self.last_state
  (has_new_work, { last_state := current_count })

/-- The LineCount detector's state computed through the Diff Source: what
`get_current_state` yields when the underlying git invocation has the
given outcome (`none` when the provider terminates the process instead
of returning). -/
def GitDiffChangesDetectorLineCount.get_current_state_from
    (repo_path : String) (outcome : GitDiffOutcome) : Option Int :=
  match (get_current_git_diff repo_path outcome).1 with
  | .ok diff_string => some (GitDiffChangesDetectorLineCount.get_current_state diff_string)
  | .fatalExit _ => none

namespace Monolith

/-- State of the monolithic `GitDiffChangesDetectorLineCount`
(src/code4swipe.py lines 145-172). -/
structure GitDiffChangesDetectorLineCount where
  last_state : Int
deriving DecidableEq

/-- Monolithic `GitDiffChangesDetectorLineCount._get_current_state`:
`len(diff_string.splitlines())`, same as the split-module version. -/
def GitDiffChangesDetectorLineCount.get_current_state (fetched_diff : String) : Int :=
  ((pySplitlines fetched_diff).length : Int)

/-- Monolithic `GitDiffChangesDetectorLineCount.check_for_new_work`: the
comparison in this copy is `current_count > self._last_state`. -/
def GitDiffChangesDetectorLineCount.check_for_new_work
    (self : GitDiffChangesDetectorLineCount) (fetched_diff : String) :
    Bool × GitDiffChangesDetectorLineCount :=
  let current_count := GitDiffChangesDetectorLineCount.get_current_state fetched_diff
  let has_new_work := decide (current_count > self.last_state)
  (has_new_work, { last_state := current_count })

end Monolith

/-! ## Enumerations (src/constants/enums.py; src/code4swipe.py lines 26-33) -/

/-- `class SwipeProviders(StrEnum)`: the closed set of provider names. -/
inductive SwipeProviders
  | ADB
deriving DecidableEq

/-- The `StrEnum` value-lookup `SwipeProviders(value)`: `some` member on a
known value, `none` when Python would raise `ValueError`. -/
def SwipeProviders.fromValue (value : String) : Option SwipeProviders :=
  if value = "adb" then some .ADB else none

/-- `class ChangeDetectors(StrEnum)`: the closed set of detector names. -/
inductive ChangeDetectors
  | LINECOUNT
  | EXACT
deriving DecidableEq

/-- The `StrEnum` value-lookup `ChangeDetectors(value)`: `some` member on
a known value, `none` when Python would raise `ValueError`. -/
def ChangeDetectors.fromValue (value : String) : Option ChangeDetectors :=
  if value = "linecount" then some .LINECOUNT
  else if value = "exact" then some .EXACT
  else none

/-! ## Reward provider: SwipeProviderADB
(src/swipe_providers/swipe_provider_adb.py; identical monolithic copy in
src/code4swipe.py lines 230-331). -/

/-- The fixed `ADB_SWIPE_COMMAND` argument vector
(src/constants/constants.py). -/
def ADB_SWIPE_COMMAND : List String :=
  ["adb", "shell", "input", "swipe", "500", "1500", "500", "500", "100"]

/-- A `SwipeProviderADB` instance: its only state is the `verbose` flag
set by `__init__`. -/
structure SwipeProviderADB where
  verbose : Bool
deriving DecidableEq

/-- Outcome of the `adb shell input swipe ...` subprocess invocation:
success with captured output, the executable being absent
(`FileNotFoundError`), a non-zero exit (`subprocess.CalledProcessError`)
with captured output, or any other exception. -/
inductive SwipeOutcome
  | success (stdout : String) (stderr : String)
  | fileNotFoundError
  | calledProcessError (stdout : String) (stderr : String)
  | otherException (message : String)
deriving DecidableEq

/-- `SwipeProviderADB.swipe_up`.  The first component is what reaches the
caller: `Except.ok ()` for a normal return, `Except.error` would be a
propagated exception (no branch produces one, because the source catches
`FileNotFoundError`, `CalledProcessError` and `Exception` exhaustively).
The second component is the list of lines echoed to stderr. -/
def SwipeProviderADB.swipe_up (self : SwipeProviderADB) (outcome : SwipeOutcome) :
    Except String Unit × List String :=
  let verbose_banner : List String :=
    if self.verbose then
      ["Running swipe: " ++ String.intercalate " " ADB_SWIPE_COMMAND]
    else []
  match outcome with
  | .success stdout stderr =>
      let logs :=
        if self.verbose then
          ["Swipe command executed successfully."] ++
          (if stdout != "" then ["Swipe stdout: " ++ pyStrip stdout] else []) ++
          (if stderr != "" then ["Swipe stderr: " ++ pyStrip stderr] else [])
        else []
      (Except.ok (), verbose_banner ++ logs)
  | .fileNotFoundError =>
      (Except.ok (), verbose_banner ++
        ["Error: adb command not found. Please ensure it is installed and in your PATH."])
  | .calledProcessError stdout stderr =>
      (Except.ok (), verbose_banner ++
        ["Error executing swipe: " ++ pyStrip stderr] ++
        (if self.verbose then ["Swipe failed stdout: " ++ pyStrip stdout] else []) ++
        ["Hint: Is your Android device connected and USB debugging enabled?"])
  | .otherException message =>
      (Except.ok (), verbose_banner ++
        ["An unexpected error occurred during swipe: " ++ message])

/-! ## Factories (src/factories.py; src/code4swipe.py lines 336-390) -/

/-- The detector classes that `get_changes_detector` can instantiate. -/
inductive DetectorImpl
  | lineCountImpl
  | exactImpl
deriving DecidableEq

/-- The `detector_map` dictionary.  `Option` models Python `dict.get`,
which yields `None` on a missing key; here every enum member has an
entry, so the `none` branch of callers is unreachable. -/
def detector_map (key : ChangeDetectors) : Option DetectorImpl :=
  match key with
  | .LINECOUNT => some .lineCountImpl
  | .EXACT => some .exactImpl

/-- How a call to `get_changes_detector` ends: an uncaught `ValueError`
raised by the `ChangeDetectors(...)` enum lookup, the explicit
unknown-name diagnostic followed by `click.Abort`, or a constructed
detector instance. -/
inductive DetectorResolution
  | valueError
  | abortUnknownDetector (diagnostic : String)
  | resolvedDetector (impl : DetectorImpl)
deriving DecidableEq

/-- `get_changes_detector(detector_name, repo_path)`: looks the lowered
name up in the enum (raising `ValueError` on an unknown value), then in
`detector_map`, and instantiates the class found. -/
def get_changes_detector (detector_name : String) : DetectorResolution :=
  match ChangeDetectors.fromValue (pyLower detector_name) with
  | none => .valueError
  | some key =>
    match detector_map key with
    | none =>
        .abortUnknownDetector
          ("Error: Unknown detector " ++ detector_name ++ ". Available: [linecount, exact]")
    | some detector_class => .resolvedDetector detector_class

/-- The `provider_map` dictionary: each entry is the class, i.e. a
constructor from the `verbose` flag to an instance. -/
def provider_map (key : SwipeProviders) : Option (Bool → SwipeProviderADB) :=
  match key with
  | .ADB => some SwipeProviderADB.mk

/-- How a call to `get_swipe_provider` ends: an uncaught `ValueError`
from the `SwipeProviders(...)` enum lookup, the unknown-name diagnostic
plus `click.Abort`, the failed-availability diagnostic plus
`click.Abort`, or a constructed provider instance. -/
inductive ProviderResolution
  | valueError
  | abortUnknownProvider (diagnostic : String)
  | abortUnavailable (diagnostic : String)
  | resolvedProvider (provider : SwipeProviderADB)
deriving DecidableEq

/-- `get_swipe_provider(provider_name, verbose)`: enum lookup (no
lowering here, unlike the detector factory), map lookup, instantiation,
then the `check_availability()` gate.  `availability_probe` is the
outcome of the instance's external `adb version` probe. -/
def get_swipe_provider (provider_name : String) (verbose : Bool)
    (availability_probe : Bool) : ProviderResolution :=
  match SwipeProviders.fromValue provider_name with
  | none => .valueError
  | some key =>
    match provider_map key with
    | none =>
        .abortUnknownProvider
          ("Error: Unknown provider " ++ provider_name ++ ". Available: [adb]")
    | some provider_class =>
      let provider_instance := provider_class verbose
      if availability_probe then .resolvedProvider provider_instance
      else
        .abortUnavailable
          ("Error: Provider " ++ provider_name ++ " failed availability check.")

/-! ## Driver loop (src/code4swipe.py `main`, lines 454-517).
`main` resolves the provider before entering the loop; a `click.Abort`
(or the uncaught `ValueError`) during initialization reaches `sys.exit(1)`
or terminates the process, so the loop body never runs.  Inside the loop,
`provider.swipe_up()` is called exactly once per tick on which
`detector.check_for_new_work()` returned true. -/

/-- Number of `swipe_up` invocations the running loop performs, given the
sequence of booleans `check_for_new_work` returns on successive ticks. -/
def run_loop_swipe_invocations (detections : List Bool) : Nat :=
  detections.count true

/-- Number of `swipe_up` invocations across a whole `main` run: zero
unless provider resolution returned an instance. -/
def main_swipe_invocations (provider_name : String) (verbose : Bool)
    (availability_probe : Bool) (detections : List Bool) : Nat :=
  match get_swipe_provider provider_name verbose availability_probe with
  | .resolvedProvider _ => run_loop_swipe_invocations detections
  | _ => 0

/-! ## Theorems -/

/-- C1: Exact-strategy postcondition.  For every stored baseline diff
text and every diff text fetched inside the call,
`GitDiffChangesDetectorExact.check_for_new_work` returns true if and
only if the fetched text differs from the baseline, and after the call
the stored baseline equals the fetched text regardless of the boolean
returned. -/
theorem exact_check_for_new_work_postcondition
    (self : GitDiffChangesDetectorExact) (fetched_diff : String) :
    ((self.check_for_new_work fetched_diff).1 = true ↔ fetched_diff ≠ self.last_state) ∧
    (self.check_for_new_work fetched_diff).2.last_state = fetched_diff := by
  refine ⟨?_, rfl⟩
  simp [GitDiffChangesDetectorExact.check_for_new_work,
    GitDiffChangesDetectorExact.get_current_state]

/-- C2: LineCount-strategy baseline update.  For every integer baseline
and every diff fetched inside the call, after `check_for_new_work`
returns, the stored baseline equals the line count computed from the
fetch, regardless of the boolean returned; this holds for the
split-module variant and for the monolithic variant alike. -/
theorem linecount_baseline_always_replaced (m : Int) (fetched_diff : String) :
    (GitDiffChangesDetectorLineCount.check_for_new_work ⟨m⟩ fetched_diff).2.last_state =
      GitDiffChangesDetectorLineCount.get_current_state fetched_diff ∧
    (Monolith.GitDiffChangesDetectorLineCount.check_for_new_work ⟨m⟩ fetched_diff).2.last_state =
      Monolith.GitDiffChangesDetectorLineCount.get_current_state fetched_diff :=
  ⟨rfl, rfl⟩

/-- C3: the two LineCount implementations in the repository differ.  At
baseline 3 with a one-line fetched diff, the split-module version
(comparison `!=`) returns true while the monolithic version (comparison
`>`) returns false, so the two check functions are not extensionally
equal. -/
theorem linecount_variants_disagree :
    (GitDiffChangesDetectorLineCount.check_for_new_work ⟨3⟩ "x").1 = true ∧
    (Monolith.GitDiffChangesDetectorLineCount.check_for_new_work ⟨3⟩ "x").1 = false ∧
    ¬ (∀ (m : Int) (d : String),
        (GitDiffChangesDetectorLineCount.check_for_new_work ⟨m⟩ d).1 =
          (Monolith.GitDiffChangesDetectorLineCount.check_for_new_work ⟨m⟩ d).1) := by
  refine ⟨rfl, rfl, fun h => ?_⟩
  exact absurd (h 3 "x") (by decide)

/-- C4: second-call quiescence.  For every strategy variant (Exact, and
both LineCount variants), if `check_for_new_work` is called twice and
the diff fetched in the second call equals the diff fetched in the
first call, the second call returns false, because the first call
unconditionally replaced the baseline with the state of that diff. -/
theorem second_call_returns_false
    (e : GitDiffChangesDetectorExact) (l : GitDiffChangesDetectorLineCount)
    (m : Monolith.GitDiffChangesDetectorLineCount) (d1 d2 : String)
    (h : d2 = d1) :
    ((e.check_for_new_work d1).2.check_for_new_work d2).1 = false ∧
    ((l.check_for_new_work d1).2.check_for_new_work d2).1 = false ∧
    ((m.check_for_new_work d1).2.check_for_new_work d2).1 = false := by
  subst h
  refine ⟨?_, ?_, ?_⟩
  · simp [GitDiffChangesDetectorExact.check_for_new_work,
      GitDiffChangesDetectorExact.get_current_state]
  · simp [GitDiffChangesDetectorLineCount.check_for_new_work]
  · simp [Monolith.GitDiffChangesDetectorLineCount.check_for_new_work]

/-- Witness for C4 at concrete inputs: baselines "a", 5, 5 and the same
empty diff fetched on both calls. -/
theorem second_call_returns_false_witness :
    ("" : String) = "" ∧
    ((((GitDiffChangesDetectorExact.mk "a").check_for_new_work "").2).check_for_new_work "").1 = false ∧
    ((((GitDiffChangesDetectorLineCount.mk 5).check_for_new_work "").2).check_for_new_work "").1 = false ∧
    ((((Monolith.GitDiffChangesDetectorLineCount.mk 5).check_for_new_work "").2).check_for_new_work "").1 = false :=
  ⟨rfl, second_call_returns_false ⟨"a"⟩ ⟨5⟩ ⟨5⟩ "" "" rfl⟩

/-- C5 counterexample: the two-step sequence of the claim fails on the
code at A = "", B = "+foo\n".  After the detector (initial baseline "")
sees B, feeding A = "" again returns true, not false, because the
baseline is then B and A differs from B. -/
theorem exact_two_step_sequence_counterexample :
    ((GitDiffChangesDetectorExact.init "").check_for_new_work "+foo\n").1 = true ∧
    ¬ ((((GitDiffChangesDetectorExact.init "").check_for_new_work "+foo\n").2.check_for_new_work "").1 = false) :=
  ⟨rfl, by decide⟩

/-- C5 amended: for all diff texts A ≠ B, with initial fetch A the call
fetching B returns true; the subsequent call fetching A returns true as
well (reverting to A is a textual change from baseline B) and leaves
the baseline equal to A; a further call fetching A then returns
false. -/
theorem exact_two_step_sequence (A B : String) (h : A ≠ B) :
    ((GitDiffChangesDetectorExact.init A).check_for_new_work B).1 = true ∧
    (((GitDiffChangesDetectorExact.init A).check_for_new_work B).2.check_for_new_work A).1 = true ∧
    (((GitDiffChangesDetectorExact.init A).check_for_new_work B).2.check_for_new_work A).2.last_state = A ∧
    ((((GitDiffChangesDetectorExact.init A).check_for_new_work B).2.check_for_new_work A).2.check_for_new_work A).1 = false := by
  refine ⟨?_, ?_, rfl, ?_⟩
  · simp [GitDiffChangesDetectorExact.check_for_new_work,
      GitDiffChangesDetectorExact.get_current_state, GitDiffChangesDetectorExact.init]
    exact fun hc => h hc.symm
  · simp [GitDiffChangesDetectorExact.check_for_new_work,
      GitDiffChangesDetectorExact.get_current_state, GitDiffChangesDetectorExact.init]
    exact h
  · simp [GitDiffChangesDetectorExact.check_for_new_work,
      GitDiffChangesDetectorExact.get_current_state]

/-- Witness for the amended C5 at A = "", B = "+foo\n". -/
theorem exact_two_step_sequence_witness :
    ("" : String) ≠ "+foo\n" ∧
    (((GitDiffChangesDetectorExact.init "").check_for_new_work "+foo\n").1 = true ∧
     (((GitDiffChangesDetectorExact.init "").check_for_new_work "+foo\n").2.check_for_new_work "").1 = true ∧
     (((GitDiffChangesDetectorExact.init "").check_for_new_work "+foo\n").2.check_for_new_work "").2.last_state = "" ∧
     ((((GitDiffChangesDetectorExact.init "").check_for_new_work "+foo\n").2.check_for_new_work "").2.check_for_new_work "").1 = false) :=
  ⟨by decide, exact_two_step_sequence "" "+foo\n" (by decide)⟩

/-- C6: Diff Source degradation.  For every repository path, a non-zero
git exit (whatever its stderr, including the not-a-git-repository
message) and any unexpected exception make `get_current_git_diff`
return the empty string normally, with no exception reaching the
caller; on success it returns the captured stdout. -/
theorem get_current_git_diff_degrades_to_empty (repo_path : String) :
    (∀ stderr, (get_current_git_diff repo_path (.calledProcessError stderr)).1 = .ok "") ∧
    (∀ message, (get_current_git_diff repo_path (.otherException message)).1 = .ok "") ∧
    (∀ stdout, (get_current_git_diff repo_path (.success stdout)).1 = .ok stdout) := by
  refine ⟨fun stderr => ?_, fun message => rfl, fun stdout => rfl⟩
  by_cases hs : (pyStrip stderr).startsWith "fatal: not a git repository" <;>
    simp [get_current_git_diff, hs]

/-- C7: evaluating the detector factory at the unknown name "bogus".
The `ChangeDetectors("bogus")` enum lookup raises `ValueError` before
the unknown-name diagnostic branch is reached; no diagnostic listing
the valid choices is emitted and no instance is constructed.  The
diagnostic branch is dead because `detector_map` has an entry for every
enum member; the provider factory behaves the same way. -/
theorem get_changes_detector_unknown_name_valueerror :
    get_changes_detector "bogus" = DetectorResolution.valueError ∧
    (∀ diagnostic, get_changes_detector "bogus" ≠ DetectorResolution.abortUnknownDetector diagnostic) ∧
    (∀ impl, get_changes_detector "bogus" ≠ DetectorResolution.resolvedDetector impl) ∧
    (∀ key, (detector_map key).isSome = true) ∧
    (∀ verbose availability_probe,
      get_swipe_provider "bogus" verbose availability_probe = ProviderResolution.valueError) := by
  have h0 : get_changes_detector "bogus" = DetectorResolution.valueError := rfl
  refine ⟨h0, fun diagnostic h => ?_, fun impl h => ?_,
    fun key => by cases key <;> rfl, fun verbose availability_probe => rfl⟩
  · rw [h0] at h
    exact DetectorResolution.noConfusion h
  · rw [h0] at h
    exact DetectorResolution.noConfusion h

/-- C8: provider availability gate.  Whenever the availability probe of
the freshly constructed provider returns false, `get_swipe_provider`
aborts: it never returns a provider instance, and a whole `main` run
with that probe outcome performs zero `swipe_up` invocations. -/
theorem unavailable_provider_never_enters_loop
    (provider_name : String) (verbose : Bool) (detections : List Bool) :
    (∀ provider, get_swipe_provider provider_name verbose false ≠
        ProviderResolution.resolvedProvider provider) ∧
    main_swipe_invocations provider_name verbose false detections = 0 := by
  by_cases hv : provider_name = "adb"
  · subst hv
    exact ⟨fun provider h => ProviderResolution.noConfusion h, rfl⟩
  · constructor
    · intro provider h
      unfold get_swipe_provider SwipeProviders.fromValue at h
      simp [hv] at h
    · unfold main_swipe_invocations get_swipe_provider SwipeProviders.fromValue
      simp [hv]

/-- C9: the reward trigger is total.  For every outcome of the external
swipe invocation (missing executable, non-zero exit, any other
exception) and either verbosity, `SwipeProviderADB.swipe_up` returns
normally; no exception propagates to the caller. -/
theorem swipe_up_never_raises (self : SwipeProviderADB) (outcome : SwipeOutcome) :
    (self.swipe_up outcome).1 = Except.ok () := by
  cases outcome <;> rfl

/-- C10: implicit LineCount state invariant.  Every freshly computed
LineCount state is a non-negative integer (the number of lines of the
fetched diff); the empty diff string maps to state 0, and in particular
both degraded error paths of the Diff Source (non-zero git exit, any
unexpected exception) yield state 0. -/
theorem linecount_state_nonneg :
    (∀ fetched_diff : String,
      0 ≤ GitDiffChangesDetectorLineCount.get_current_state fetched_diff) ∧
    GitDiffChangesDetectorLineCount.get_current_state "" = 0 ∧
    (∀ repo_path stderr : String,
      GitDiffChangesDetectorLineCount.get_current_state_from repo_path
        (.calledProcessError stderr) = some 0) ∧
    (∀ repo_path message : String,
      GitDiffChangesDetectorLineCount.get_current_state_from repo_path
        (.otherException message) = some 0) := by
  refine ⟨fun fetched_diff => ?_, rfl, fun repo_path stderr => ?_, fun repo_path message => rfl⟩
  · unfold GitDiffChangesDetectorLineCount.get_current_state
    exact Int.natCast_nonneg _
  · by_cases hs : (pyStrip stderr).startsWith "fatal: not a git repository" <;>
      simp [GitDiffChangesDetectorLineCount.get_current_state_from, get_current_git_diff, hs] <;>
      rfl
